import Mathlib

/-!
Verification of the LLMWhisperer python client against its design
specification.  The pure fragments of the client are embedded shallowly:
Python strings become Lean strings (or lists of characters where elementwise
reasoning is needed), Python integers become Int or Nat, JSON payloads the
client never inspects are carried as opaque strings, raising becomes Except,
and the blocking polling loop becomes a recursive function whose wall clock
advances by the 5 second sleep ending each iteration.  Definitions follow
src/src/unstract/llmwhisperer/client_v2.py and src/src/llmwhisperer/utils.py;
the retry/deadline engine, which the unit tests and the spec describe but
which is absent from src/, is modelled from the spec and marked as such.
-/

/-- Helper for the Python substring test: does the second list of characters
start with the first? -/
def startsWithChars : List Char → List Char → Bool
  | [], _ => true
  | _ :: _, [] => false
  | n :: ns, h :: hs => n == h && startsWithChars ns hs

/-- Python substring containment on strings (the expression needle in hay):
true when the first list occurs contiguously inside the second, including the
empty needle. -/
def containsChars (needle : List Char) : List Char → Bool
  | [] => startsWithChars needle []
  | h :: hs => startsWithChars needle (h :: hs) || containsChars needle hs

/-- The legacy check at client_v2.py line 330, Python "error" in status. -/
def hasErrorSubstring (s : String) : Bool :=
  containsChars "error".data s.data

/-- redact_key from src/src/llmwhisperer/utils.py lines 2-21.  The Python
argument may fail the isinstance check, modelled by none; strings are lists of
characters; ValueError becomes Except.error carrying the message the source
raises.  The body mirrors the source: the revealed part is key[:reveal_length]
and the redacted part is the mask character repeated
max(len(key) - reveal_length, 0) times. -/
def redact_key (api_key : Option (List Char)) (reveal_length : Int) :
    Except String (List Char) :=
  match api_key with
  | none => .error "API key must be a string"
  | some key =>
    if reveal_length < 0 then
      .error "Reveal length must be a non-negative integer"
    else
      .ok (key.take reveal_length.toNat ++
        List.replicate ((key.length : Int) - reveal_length).toNat 'x')

/-- get_highlight_rect from client_v2.py lines 508-536, over exact integer
arithmetic.  The source computes int(float(y) / float(original_height) *
float(target_height)) in double precision; truncation toward zero of the
exact rational value y * target_height / original_height is written
Int.tdiv (y * target_height) original_height.  On the concrete inputs proved
about below the double precision intermediate is far from an integer
boundary, so the exact and floating computations truncate to the same
integer.  Indexing line_metadata[0..3] is modelled with getD; the source
presumes a list of at least four entries. -/
def get_highlight_rect (line_metadata : List Int)
    (target_width target_height : Int) : Int × Int × Int × Int × Int :=
  let page := line_metadata.getD 0 0
  let x1 : Int := 0
  let y1 := line_metadata.getD 1 0 - line_metadata.getD 2 0
  let x2 := target_width
  let y2 := line_metadata.getD 1 0
  let original_height := line_metadata.getD 3 0
  (page, x1, Int.tdiv (y1 * target_height) original_height, x2,
    Int.tdiv (y2 * target_height) original_height)

/-- The distinctions Python json.loads induces that the error paths of the
client can observe: the body parses to a mapping, to a bare JSON string
literal, to some other JSON value, or is not valid JSON at all (none).
Mapping values are carried opaquely as strings. -/
inductive PyJson where
  | obj (fields : List (String × String)) : PyJson
  | str (s : String) : PyJson
  | other : PyJson
deriving DecidableEq

/-- How the error path of an endpoint method terminates: a raised
LLMWhispererClientException carrying the decoded mapping plus the HTTP status
code, a TypeError from item assignment on a non-mapping, or a JSONDecodeError
from json.loads itself. -/
inductive ErrorPathOutcome where
  | clientException (fields : List (String × String)) (status_code : Int)
  | typeError
  | jsonDecodeError
deriving DecidableEq

/-- The non-200 path of get_usage_info, client_v2.py lines 152-155: the code
runs err = json.loads(response.text), then assigns err["status_code"] =
response.status_code, then raises.  json.loads on an invalid body raises
JSONDecodeError before the assignment; item assignment on a parsed value that
is not a mapping (a bare string or any other JSON value) raises TypeError.
The same three lines recur in whisper, whisper_status, whisper_retrieve,
register_webhook and get_webhook_details. -/
def usageInfoErrorPath (parsed : Option PyJson) (http_code : Int) :
    ErrorPathOutcome :=
  match parsed with
  | none => .jsonDecodeError
  | some (.obj fields) => .clientException fields http_code
  | some (.str _) => .typeError
  | some .other => .typeError

/-- One HTTP response from the whisper-status endpoint, projected to the
fields the client reads: the HTTP status code and the body keys status and
message (absent keys are the empty string). -/
structure StatusHttpResponse where
  httpCode : Int
  status : String
  message : String
deriving DecidableEq

/-- The dictionary whisper_status returns on success. -/
structure StatusDict where
  statusCode : Int
  status : String
  message : String
deriving DecidableEq

/-- The payload of a raised LLMWhispererClientException, projected to the
keys the claims inspect: status_code plus the status and message keys of the
decoded body (absent keys are the empty string; the extraction key some
raisers add always holds the empty mapping and is not modelled). -/
structure ClientError where
  statusCode : Int
  status : String
  message : String
deriving DecidableEq

/-- whisper_status, client_v2.py lines 363-397: a non-200 HTTP response makes
it raise the decoded body plus the status code; otherwise it returns the
decoded body with status_code overwritten by the (necessarily 200) HTTP
status code. -/
def whisper_status (r : StatusHttpResponse) : Except ClientError StatusDict :=
  if r.httpCode ≠ 200 then
    .error { statusCode := r.httpCode, status := r.status, message := r.message }
  else
    .ok { statusCode := r.httpCode, status := r.status, message := r.message }

/-- One HTTP response from the whisper-retrieve endpoint: the HTTP status
code and the decoded body, carried opaquely as the extraction payload. -/
structure RetrieveHttpResponse where
  httpCode : Int
  extraction : String
deriving DecidableEq

/-- The dictionary whisper_retrieve returns on success. -/
structure RetrieveDict where
  statusCode : Int
  extraction : String
deriving DecidableEq

/-- whisper_retrieve, client_v2.py lines 399-436: a non-200 HTTP response
makes it raise the decoded body (carried here in the message slot) plus the
status code; otherwise it returns status_code 200 and the decoded body as the
extraction payload. -/
def whisper_retrieve (r : RetrieveHttpResponse) :
    Except ClientError RetrieveDict :=
  if r.httpCode ≠ 200 then
    .error { statusCode := r.httpCode, status := "", message := r.extraction }
  else
    .ok { statusCode := r.httpCode, extraction := r.extraction }

/-- The message dictionary whisper builds and returns, projected to the keys
the claims inspect.  extraction is the opaque JSON payload; the empty string
stands for the empty mapping. -/
structure WhisperResult where
  statusCode : Int
  message : String
  status : String
  extraction : String
  whisperHash : String
deriving DecidableEq

/-- The blocking polling loop of whisper, client_v2.py lines 309-356.
statusAt k is the HTTP response to the k-th status poll and retrieveResp the
response to the retrieve call issued after a processed status.  Network time
is abstracted to zero, so with the 5 second sleep ending each iteration the
k-th poll happens at elapsed time 5 * k and the loop guard
time.time() - start_time < wait_timeout becomes 5 * k < wait_timeout.  The
branches mirror the source in order: a status dictionary whose status_code is
not 200 yields the in-band failed result (unreachable, since whisper_status
never returns such a dictionary); accepted and processing only log, falling
through to the sleep; a status equal to error, or containing error as a
substring, yields the in-band error result; processed triggers the retrieve
call; any other status falls through to the sleep.  An exception raised by
whisper_status or whisper_retrieve propagates (whisper has no handler).  The
second component counts the HTTP calls the loop issued. -/
def pollLoop (statusAt : Nat → StatusHttpResponse)
    (retrieveResp : RetrieveHttpResponse) (wait_timeout : Nat)
    (m : WhisperResult) (k : Nat) : Except ClientError WhisperResult × Nat :=
  if _h : 5 * k < wait_timeout then
    match whisper_status (statusAt k) with
    | .error e => (.error e, 1)
    | .ok st =>
      if st.statusCode ≠ 200 then
        (.ok { m with statusCode := -1,
                      message := "Whisper client operation failed",
                      extraction := "" }, 1)
      else if st.status = "processing" then
        let p := pollLoop statusAt retrieveResp wait_timeout m (k + 1)
        (p.1, p.2 + 1)
      else if st.status = "error" then
        (.ok { m with statusCode := -1, message := st.message,
                      status := "error", extraction := "" }, 1)
      else if hasErrorSubstring st.status then
        (.ok { m with statusCode := -1, message := st.status,
                      status := "error", extraction := "" }, 1)
      else if st.status = "processed" then
        match whisper_retrieve retrieveResp with
        | .error e => (.error e, 2)
        | .ok rx =>
          if rx.statusCode = 200 then
            (.ok { m with statusCode := 200,
                          message := "Whisper operation completed",
                          status := "processed",
                          extraction := rx.extraction }, 2)
          else
            (.ok { m with statusCode := -1,
                          message := "Whisper client operation failed",
                          extraction := "" }, 2)
      else
        let p := pollLoop statusAt retrieveResp wait_timeout m (k + 1)
        (p.1, p.2 + 1)
  else
    (.ok { m with statusCode := -1,
                  message := "Whisper client operation timed out",
                  extraction := "" }, 0)
termination_by wait_timeout - 5 * k
decreasing_by all_goals omega

/-- One HTTP response to the submit POST, projected to the fields whisper
reads from the decoded body (absent keys are the empty string). -/
structure SubmitHttpResponse where
  httpCode : Int
  message : String
  status : String
  extraction : String
  whisperHash : String
deriving DecidableEq

/-- The observable outcome of one whisper call: the returned dictionary or
the raised exception, the number of HTTP requests issued, and the timeout
argument the submit POST handed to the transport (none when no submit
happened). -/
structure WhisperCall where
  result : Except ClientError WhisperResult
  requestsIssued : Nat
  submitTimeout : Option Nat

/-- whisper, client_v2.py lines 158-361, with the document source abstracted
to the url and file_path strings plus a flag for the byte stream.  The two
validations at lines 248-262 run in source order before any network traffic;
the submit POST is then sent with timeout=wait_timeout (line 295, the
configured api_timeout is not consulted there); a response that is neither
200 nor 202 is decoded and raised; a 202 response either returns the decoded
message at once or enters the polling loop; a 200 response returns the
decoded body with status_code set to 200.  The dictionaries raised by the
validations and the submit error also carry extraction set to the empty
mapping, which ClientError does not record. -/
def whisper (use_webhook : String) (wait_for_completion : Bool)
    (url file_path : String) (hasStream : Bool) (wait_timeout : Nat)
    (submitResp : SubmitHttpResponse) (statusAt : Nat → StatusHttpResponse)
    (retrieveResp : RetrieveHttpResponse) : WhisperCall :=
  if use_webhook ≠ "" ∧ wait_for_completion then
    { result := .error { statusCode := -1,
                         status := "",
                         message := "Cannot wait for completion when using webhook" },
      requestsIssued := 0,
      submitTimeout := none }
  else if url = "" ∧ file_path = "" ∧ ¬hasStream then
    { result := .error { statusCode := -1,
                         status := "",
                         message := "Either url, stream or file_path must be provided" },
      requestsIssued := 0,
      submitTimeout := none }
  else if submitResp.httpCode ≠ 200 ∧ submitResp.httpCode ≠ 202 then
    { result := .error { statusCode := submitResp.httpCode,
                         status := submitResp.status,
                         message := submitResp.message },
      requestsIssued := 1,
      submitTimeout := some wait_timeout }
  else if submitResp.httpCode = 202 then
    let m : WhisperResult :=
      { statusCode := 202,
        message := submitResp.message,
        status := submitResp.status,
        extraction := "",
        whisperHash := submitResp.whisperHash }
    if ¬wait_for_completion then
      { result := .ok m,
        requestsIssued := 1,
        submitTimeout := some wait_timeout }
    else
      let p := pollLoop statusAt retrieveResp wait_timeout m 0
      { result := p.1,
        requestsIssued := 1 + p.2,
        submitTimeout := some wait_timeout }
  else
    { result := .ok { statusCode := 200,
                      message := submitResp.message,
                      status := submitResp.status,
                      extraction := submitResp.extraction,
                      whisperHash := submitResp.whisperHash },
      requestsIssued := 1,
      submitTimeout := some wait_timeout }

/-- Modelled from the spec: the outcome of one transport attempt as the
Retry/Deadline Engine classifies it (spec 4.3).  The engine itself, the
_send_request method with max_retries, retry_min_wait and retry_max_wait that
tests/unit/client_v2_test.py exercises, is absent from src/. -/
inductive AttemptOutcome where
  | response (http_code : Nat) (body : String)
  | connectionError (msg : String)
  | socketTimeout (msg : String)
deriving DecidableEq

/-- Modelled from the spec: retryable conditions are network level connection
failures, socket timeouts, HTTP 429 and HTTP 5xx; every other HTTP response,
success or a 4xx other than 429, is not retried. -/
def retryable : AttemptOutcome → Bool
  | .response c _ => decide (c = 429 ∨ (500 ≤ c ∧ c < 600))
  | .connectionError _ => true
  | .socketTimeout _ => true

/-- Modelled from the spec: what the engine hands back once it stops
retrying — the last response envelope (still carrying a failing status code
when retries were exhausted on 429/5xx), or the propagated transport
error. -/
inductive SendOutcome where
  | response (http_code : Nat) (body : String)
  | transportError (o : AttemptOutcome)
deriving DecidableEq

/-- Modelled from the spec: settling one attempt when no retry follows. -/
def settle : AttemptOutcome → SendOutcome
  | .response c b => .response c b
  | .connectionError msg => .transportError (.connectionError msg)
  | .socketTimeout msg => .transportError (.socketTimeout msg)

/-- Modelled from the spec: the retry loop of the Retry/Deadline Engine with
no deadline.  attempts i is the transport outcome of the i-th attempt; the
second argument is the number of retries still allowed (0 disables retrying).
A retryable outcome with retries remaining backs off and retries; anything
else settles.  Returns the settled outcome and the total attempt count. -/
def sendLoop (attempts : Nat → AttemptOutcome) : Nat → Nat → SendOutcome × Nat
  | i, 0 => (settle (attempts i), i + 1)
  | i, remaining + 1 =>
    if retryable (attempts i) then sendLoop attempts (i + 1) remaining
    else (settle (attempts i), i + 1)

/-- Modelled from the spec: one engine call with max_retries as the retry
budget, so at most max_retries + 1 attempts. -/
def send_request (attempts : Nat → AttemptOutcome) (max_retries : Nat) :
    SendOutcome × Nat :=
  sendLoop attempts 0 max_retries

/-- How an endpoint method call terminates for the caller: the decoded
success body, a raised client exception carrying the decoded failing body and
its status code, or the propagated transport error. -/
inductive EndpointOutcome where
  | success (body : String)
  | clientException (http_code : Nat) (body : String)
  | transportError (o : AttemptOutcome)
deriving DecidableEq

/-- Modelled from the spec, composed with get_usage_info (client_v2.py lines
131-156): the endpoint method issues its request through the engine; a
response with status other than 200 is decoded and raised as a client
exception; a propagated transport error passes through undecoded.  The
second component is the total number of HTTP attempts issued. -/
def get_usage_info (attempts : Nat → AttemptOutcome) (max_retries : Nat) :
    EndpointOutcome × Nat :=
  match send_request attempts max_retries with
  | (.response c b, n) =>
    if c ≠ 200 then (.clientException c b, n) else (.success b, n)
  | (.transportError o, n) => (.transportError o, n)

/-- Modelled from the spec: the effective timeout of one attempt under a
deadline — min(caller-supplied timeout, remaining time to deadline).  Times
are whole seconds; the source uses floating point seconds, which only blurs
the comparison by the clock resolution. -/
def effectiveTimeout (timeout deadline now : Int) : Int :=
  min timeout (deadline - now)

/-- Modelled from the spec: the deadline-aware retry loop of the
Retry/Deadline Engine.  attempts i is the transport outcome of the i-th
attempt, timeAt i the wall clock when it would be issued, deadline the
absolute deadline, threaded unchanged through the recursion (it is never
extended), and the last argument the retries still allowed.  Before each
attempt the engine stops when no time remains; each issued attempt is handed
the effective timeout.  The result is the list of effective timeouts handed
to the transport, one per attempt actually issued. -/
def deadlineTrace (attempts : Nat → AttemptOutcome) (timeAt : Nat → Int)
    (timeout deadline : Int) : Nat → Nat → List Int
  | i, 0 =>
    if deadline - timeAt i ≤ 0 then []
    else [effectiveTimeout timeout deadline (timeAt i)]
  | i, remaining + 1 =>
    if deadline - timeAt i ≤ 0 then []
    else
      effectiveTimeout timeout deadline (timeAt i) ::
        (if retryable (attempts i) then
          deadlineTrace attempts timeAt timeout deadline (i + 1) remaining
        else [])

/-- Scripted status sequence for the polling claims: accepted, then
processing, then processed forever after. -/
def scriptTerminalProcessed : Nat → StatusHttpResponse := fun k =>
  if k = 0 then ⟨200, "accepted", ""⟩
  else if k = 1 then ⟨200, "processing", ""⟩
  else ⟨200, "processed", ""⟩

/-- Scripted status sequence ending in the exact error status, carrying the
service message. -/
def scriptTerminalError (errMsg : String) : Nat → StatusHttpResponse :=
  fun k =>
    if k = 0 then ⟨200, "accepted", ""⟩ else ⟨200, "error", errMsg⟩

/-- Scripted status sequence ending in a status that merely contains error as
a substring (the legacy convention). -/
def scriptLegacyError : Nat → StatusHttpResponse := fun k =>
  if k = 0 then ⟨200, "accepted", ""⟩ else ⟨200, "table_error", ""⟩

/-- Scripted status sequence that never reaches a terminal state. -/
def scriptProcessing : Nat → StatusHttpResponse := fun _ =>
  ⟨200, "processing", ""⟩

/-- Length arithmetic helper: a nonnegative reveal count not exceeding the
key length, read back through Int.toNat. -/
theorem redact_count_eq (n : Nat) (r : Int) (hr : 0 ≤ r) :
    ((n : Int) - r).toNat = n - r.toNat := by omega

/-- C9: for a string key and reveal count r with 0 <= r <= len, redact_key
keeps the length, keeps the first r characters, and masks the rest with x;
for r beyond the length it returns the key unchanged; a negative r or a
non-string key fails with the ValueError message of the source. -/
theorem redact_key_spec (s : List Char) (r : Int) :
    (0 ≤ r → r.toNat ≤ s.length →
      (redact_key (some s) r).map List.length = .ok s.length
      ∧ (redact_key (some s) r).map (List.take r.toNat) = .ok (s.take r.toNat)
      ∧ (redact_key (some s) r).map (List.drop r.toNat)
          = .ok (List.replicate (s.length - r.toNat) 'x'))
    ∧ (0 ≤ r → s.length < r.toNat → redact_key (some s) r = .ok s)
    ∧ (r < 0 →
        redact_key (some s) r
          = .error "Reveal length must be a non-negative integer")
    ∧ redact_key none r = .error "API key must be a string" := by
  refine ⟨?_, ?_, ?_, rfl⟩
  · intro hr hle
    have hr' : ¬ r < 0 := not_lt.mpr hr
    have htl : (s.take r.toNat).length = r.toNat := by
      simp [List.length_take]
      omega
    simp only [redact_key, if_neg hr', redact_count_eq s.length r hr, Except.map]
    refine ⟨?_, ?_, ?_⟩
    · simp
      omega
    · rw [show (s.take r.toNat ++ List.replicate (s.length - r.toNat) 'x').take r.toNat
          = (s.take r.toNat ++ List.replicate (s.length - r.toNat) 'x').take
              (s.take r.toNat).length by rw [htl]]
      rw [List.take_left]
    · rw [show (s.take r.toNat ++ List.replicate (s.length - r.toNat) 'x').drop r.toNat
          = (s.take r.toNat ++ List.replicate (s.length - r.toNat) 'x').drop
              (s.take r.toNat).length by rw [htl]]
      rw [List.drop_left]
  · intro hr hgt
    have hr' : ¬ r < 0 := not_lt.mpr hr
    have htake : s.take r.toNat = s := List.take_of_length_le (le_of_lt hgt)
    have hzero : ((s.length : Int) - r).toNat = 0 := by omega
    simp [redact_key, if_neg hr', htake, hzero]
  · intro hr
    simp [redact_key, if_pos hr]

/-- Witness for C9 at a concrete key and reveal count. -/
theorem redact_key_spec_witness :
    (0 ≤ (2 : Int) ∧ (2 : Int).toNat ≤ (['a', 'b', 'c', 'd'] : List Char).length)
    ∧ (redact_key (some ['a', 'b', 'c', 'd']) 2).map (List.drop 2)
        = .ok (List.replicate 2 'x')
    ∧ redact_key none 2 = .error "API key must be a string" :=
  ⟨⟨by decide, by decide⟩,
    ((redact_key_spec ['a', 'b', 'c', 'd'] 2).1 (by decide) (by decide)).2.2,
    (redact_key_spec ['a', 'b', 'c', 'd'] 2).2.2.2⟩

/-- Doubling the dividend of a Nat division at least doubles the
quotient. -/
theorem nat_two_mul_div_le (m n : Nat) : 2 * (m / n) ≤ 2 * m / n := by
  rcases Nat.eq_zero_or_pos n with h | h
  · subst h
    simp
  · rw [Nat.le_div_iff_mul_le h]
    calc 2 * (m / n) * n = 2 * (m / n * n) := by ring
    _ ≤ 2 * m := Nat.mul_le_mul_left 2 (Nat.div_mul_le_self m n)

/-- Doubling the dividend of a Nat division at most doubles the quotient up
to one. -/
theorem nat_two_mul_div_ge (m n : Nat) (hn : 0 < n) :
    2 * m / n ≤ 2 * (m / n) + 1 := by
  have hlt : 2 * m / n < 2 * (m / n) + 2 := by
    rw [Nat.div_lt_iff_lt_mul hn]
    have expand : (2 * (m / n) + 2) * n = 2 * (n * (m / n)) + 2 * n := by ring
    rw [expand]
    have hqr : n * (m / n) + m % n = m := Nat.div_add_mod m n
    have hrn : m % n < n := Nat.mod_lt m hn
    set t := n * (m / n) with ht
    set rr := m % n with hr2
    omega
  exact Nat.lt_succ_iff.mp hlt

/-- Truncating division of a doubled nonnegative dividend lies between twice
the single quotient and twice the single quotient plus one. -/
theorem tdiv_double_bounds (a b : Int) (ha : 0 ≤ a) (hb : 0 < b) :
    2 * Int.tdiv a b ≤ Int.tdiv (2 * a) b
    ∧ Int.tdiv (2 * a) b ≤ 2 * Int.tdiv a b + 1 := by
  obtain ⟨m, rfl⟩ := Int.eq_ofNat_of_zero_le ha
  obtain ⟨n, rfl⟩ := Int.eq_ofNat_of_zero_le hb.le
  have hn : 0 < n := by exact_mod_cast hb
  have h2a : (2 : Int) * (m : Int) = ((2 * m : Nat) : Int) := by push_cast; ring
  have e1 : Int.tdiv (m : Int) (n : Int) = ((m / n : Nat) : Int) := rfl
  have e2 : Int.tdiv ((2 * m : Nat) : Int) (n : Int)
      = ((2 * m / n : Nat) : Int) := rfl
  rw [h2a, e1, e2]
  constructor
  · exact_mod_cast nat_two_mul_div_le m n
  · exact_mod_cast nat_two_mul_div_ge m n hn

/-- C8 counterexample: at the line metadata of the claim, doubling the target
height from 1000 to 2000 does not exactly double the returned y1 (48 becomes
97, not 96), so the claimed exact proportionality of the truncated
coordinates fails. -/
theorem get_highlight_rect_doubling_counterexample :
    get_highlight_rect [0, 206, 51, 3168] 800 1000 = (0, 0, 48, 800, 65)
    ∧ get_highlight_rect [0, 206, 51, 3168] 800 2000 = (0, 0, 97, 800, 130)
    ∧ (97 : Int) ≠ 2 * 48 := by
  decide

/-- C8 as amended: get_highlight_rect returns (page, 0, y1, target_width, y2)
with y1 and y2 the truncation toward zero of the exact linear rescales
(y_bottom - height) * target_height / original_height and
y_bottom * target_height / original_height; the pre-truncation values are
exactly proportional in target_height, so the truncated coordinates double up
to an error of at most one when target_height doubles. -/
theorem get_highlight_rect_linear (page y_bottom height original_height tw th :
    Int) (hoh : 0 < original_height) (hy1 : 0 ≤ y_bottom - height)
    (hy2 : 0 ≤ y_bottom) (hth : 0 ≤ th) :
    get_highlight_rect [page, y_bottom, height, original_height] tw th
      = (page, 0, Int.tdiv ((y_bottom - height) * th) original_height, tw,
         Int.tdiv (y_bottom * th) original_height)
    ∧ 2 * Int.tdiv ((y_bottom - height) * th) original_height
        ≤ Int.tdiv ((y_bottom - height) * (2 * th)) original_height
    ∧ Int.tdiv ((y_bottom - height) * (2 * th)) original_height
        ≤ 2 * Int.tdiv ((y_bottom - height) * th) original_height + 1
    ∧ 2 * Int.tdiv (y_bottom * th) original_height
        ≤ Int.tdiv (y_bottom * (2 * th)) original_height
    ∧ Int.tdiv (y_bottom * (2 * th)) original_height
        ≤ 2 * Int.tdiv (y_bottom * th) original_height + 1 := by
  have ha1 : 0 ≤ (y_bottom - height) * th := mul_nonneg hy1 hth
  have ha2 : 0 ≤ y_bottom * th := mul_nonneg hy2 hth
  have e1 : (y_bottom - height) * (2 * th) = 2 * ((y_bottom - height) * th) := by
    ring
  have e2 : y_bottom * (2 * th) = 2 * (y_bottom * th) := by ring
  refine ⟨rfl, ?_, ?_, ?_, ?_⟩
  · rw [e1]
    exact (tdiv_double_bounds _ _ ha1 hoh).1
  · rw [e1]
    exact (tdiv_double_bounds _ _ ha1 hoh).2
  · rw [e2]
    exact (tdiv_double_bounds _ _ ha2 hoh).1
  · rw [e2]
    exact (tdiv_double_bounds _ _ ha2 hoh).2

/-- Witness for the amended C8 at the line metadata of the claim. -/
theorem get_highlight_rect_linear_witness :
    ((0 : Int) < 3168 ∧ (0 : Int) ≤ 206 - 51 ∧ (0 : Int) ≤ 206
      ∧ (0 : Int) ≤ 1000)
    ∧ get_highlight_rect [0, 206, 51, 3168] 800 1000
        = (0, 0, Int.tdiv ((206 - 51) * 1000) 3168, 800,
           Int.tdiv (206 * 1000) 3168) :=
  ⟨⟨by decide, by decide, by decide, by decide⟩,
    (get_highlight_rect_linear 0 206 51 3168 800 1000 (by decide) (by decide)
      (by decide) (by decide)).1⟩

/-- C6: on a non-2xx body that is a bare JSON string literal the source
raises TypeError from the item assignment, and on a body that is not valid
JSON it raises JSONDecodeError, instead of the claimed wrapped client
exception. -/
theorem error_body_decode_secondary_failure :
    usageInfoErrorPath (some (.str "Error message as JSON string")) 400
      = .typeError
    ∧ usageInfoErrorPath none 500 = .jsonDecodeError
    ∧ usageInfoErrorPath (some (.str "Error message as JSON string")) 400
        ≠ .clientException [("message", "Error message as JSON string")] 400 := by
  decide

/-- A constantly retryable attempt source drives the engine through its whole
budget: starting at attempt i with r retries allowed, it settles the attempt
at index i + r after i + r + 1 total attempts. -/
theorem sendLoop_const_retryable (attempts : Nat → AttemptOutcome)
    (h : ∀ j, retryable (attempts j) = true) :
    ∀ r i, sendLoop attempts i r = (settle (attempts (i + r)), i + r + 1) := by
  intro r
  induction r with
  | zero =>
    intro i
    simp [sendLoop]
  | succ r ih =>
    intro i
    simp only [sendLoop, h i, if_true]
    rw [ih (i + 1)]
    have hadd : i + 1 + r = i + (r + 1) := by omega
    rw [hadd]

/-- C1: a 4xx response other than 429 settles after exactly one attempt and
is raised as a client exception; a constant 429 or 5xx response is attempted
max_retries + 1 times before the last response is raised as a client
exception; a constant connection error or socket timeout is attempted the
same number of times and the propagated failure is the transport error, not a
decoded HTTP error. -/
theorem retry_classification (attempts : Nat → AttemptOutcome)
    (max_retries : Nat) (c : Nat) (b e : String) :
    (attempts 0 = .response c b → 400 ≤ c → c < 500 → c ≠ 429 →
      get_usage_info attempts max_retries = (.clientException c b, 1))
    ∧ ((∀ i, attempts i = .response c b) → (c = 429 ∨ (500 ≤ c ∧ c < 600)) →
      get_usage_info attempts max_retries
        = (.clientException c b, max_retries + 1))
    ∧ ((∀ i, attempts i = .connectionError e) →
      get_usage_info attempts max_retries
        = (.transportError (.connectionError e), max_retries + 1))
    ∧ ((∀ i, attempts i = .socketTimeout e) →
      get_usage_info attempts max_retries
        = (.transportError (.socketTimeout e), max_retries + 1)) := by
  refine ⟨?_, ?_, ?_, ?_⟩
  · intro h0 h4 h5 h429
    have hnr : retryable (AttemptOutcome.response c b) = false := by
      simp only [retryable, decide_eq_false_iff_not]
      omega
    have hc200 : c ≠ 200 := by omega
    have hsend : send_request attempts max_retries = (.response c b, 1) := by
      cases max_retries with
      | zero => simp [send_request, sendLoop, h0, settle]
      | succ r => simp [send_request, sendLoop, hnr, h0, settle]
    simp [get_usage_info, hsend, hc200]
  · intro hall hcls
    have hr : ∀ j, retryable (attempts j) = true := by
      intro j
      rw [hall j]
      simp only [retryable, decide_eq_true_eq]
      omega
    have hc200 : c ≠ 200 := by omega
    have hsend := sendLoop_const_retryable attempts hr max_retries 0
    rw [hall (0 + max_retries)] at hsend
    simp [get_usage_info, send_request, hsend, settle, hc200]
  · intro hall
    have hr : ∀ j, retryable (attempts j) = true := by
      intro j
      rw [hall j]
      rfl
    have hsend := sendLoop_const_retryable attempts hr max_retries 0
    rw [hall (0 + max_retries)] at hsend
    simp [get_usage_info, send_request, hsend, settle]
  · intro hall
    have hr : ∀ j, retryable (attempts j) = true := by
      intro j
      rw [hall j]
      rfl
    have hsend := sendLoop_const_retryable attempts hr max_retries 0
    rw [hall (0 + max_retries)] at hsend
    simp [get_usage_info, send_request, hsend, settle]

/-- Witness for C1: a 404 settles in one attempt, a constant 500 and a
constant connection error exhaust a budget of three retries in four attempts,
and with max_retries zero a socket timeout makes exactly one attempt. -/
theorem retry_classification_witness :
    get_usage_info (fun _ => .response 404 "nf") 3
      = (.clientException 404 "nf", 1)
    ∧ get_usage_info (fun _ => .response 500 "boom") 3
        = (.clientException 500 "boom", 4)
    ∧ get_usage_info (fun _ => .connectionError "refused") 3
        = (.transportError (.connectionError "refused"), 4)
    ∧ get_usage_info (fun _ => .socketTimeout "slow") 0
        = (.transportError (.socketTimeout "slow"), 1) :=
  ⟨(retry_classification (fun _ => .response 404 "nf") 3 404 "nf" "").1 rfl
      (by decide) (by decide) (by decide),
   (retry_classification (fun _ => .response 500 "boom") 3 500 "boom" "").2.1
      (fun _ => rfl) (by decide),
   (retry_classification (fun _ => .connectionError "refused") 3 0 ""
      "refused").2.2.1 (fun _ => rfl),
   (retry_classification (fun _ => .socketTimeout "slow") 0 0 ""
      "slow").2.2.2 (fun _ => rfl)⟩

/-- C2: every attempt the deadline-aware engine issues is handed the
effective timeout min(caller-supplied timeout, remaining time to the one
deadline fixed when the operation started), and when the remaining time d is
positive and below the caller-supplied timeout the first attempt uses d,
never the caller-supplied timeout. -/
theorem deadline_capping (attempts : Nat → AttemptOutcome) (timeAt : Nat → Int)
    (timeout deadline : Int) (r : Nat) :
    (∀ i j x,
      (deadlineTrace attempts timeAt timeout deadline i r).get? j = some x →
      x = min timeout (deadline - timeAt (i + j)))
    ∧ (∀ i, 0 < deadline - timeAt i → deadline - timeAt i < timeout →
      (deadlineTrace attempts timeAt timeout deadline i r).head?
          = some (deadline - timeAt i)
      ∧ deadline - timeAt i ≠ timeout) := by
  constructor
  · induction r with
    | zero =>
      intro i j x hx
      by_cases hle : deadline - timeAt i ≤ 0
      · simp [deadlineTrace, hle] at hx
      · cases j with
        | zero =>
          simp [deadlineTrace, hle, effectiveTimeout] at hx
          simp [← hx]
        | succ j2 =>
          simp [deadlineTrace, hle] at hx
    | succ r ih =>
      intro i j x hx
      by_cases hle : deadline - timeAt i ≤ 0
      · simp [deadlineTrace, hle] at hx
      · cases j with
        | zero =>
          simp [deadlineTrace, hle, effectiveTimeout] at hx
          simp [← hx]
        | succ j2 =>
          simp only [deadlineTrace, if_neg hle, List.get?] at hx
          by_cases hretry : retryable (attempts i) = true
          · rw [if_pos hretry] at hx
            have hres := ih (i + 1) j2 x hx
            rw [hres]
            have hadd : i + 1 + j2 = i + (j2 + 1) := by omega
            rw [hadd]
          · rw [if_neg hretry] at hx
            simp at hx
  · intro i h0 hT
    have hle : ¬ deadline - timeAt i ≤ 0 := by omega
    have hmin : min timeout (deadline - timeAt i) = deadline - timeAt i :=
      min_eq_right (le_of_lt hT)
    refine ⟨?_, by omega⟩
    cases r with
    | zero => simp [deadlineTrace, hle, effectiveTimeout, hmin]
    | succ r2 => simp [deadlineTrace, hle, effectiveTimeout, hmin]

/-- Witness for C2: with the clock at zero, a deadline two seconds away and a
requested timeout of five, the first attempt is handed timeout two. -/
theorem deadline_capping_witness :
    ((0 : Int) < 2 - 0 ∧ (2 : Int) - 0 < 5)
    ∧ (deadlineTrace (fun _ => AttemptOutcome.response 500 "e")
        (fun _ => (0 : Int)) 5 2 0 3).head? = some 2
    ∧ (2 : Int) - 0 ≠ 5 := by
  have h := (deadline_capping (fun _ => AttemptOutcome.response 500 "e")
    (fun _ => (0 : Int)) 5 2 3).2 0 (by decide) (by decide)
  exact ⟨⟨by decide, by decide⟩, by simpa using h.1, h.2⟩

/-- Expiry of the wait budget: once the elapsed time 5 * k reaches
wait_timeout, the loop returns the timed out sentinel result without issuing
a call. -/
theorem pollLoop_timeout (statusAt : Nat → StatusHttpResponse)
    (retrieveResp : RetrieveHttpResponse) (wt : Nat) (m : WhisperResult)
    (k : Nat) (hk : ¬ 5 * k < wt) :
    pollLoop statusAt retrieveResp wt m k
      = (.ok { m with statusCode := -1,
                      message := "Whisper client operation timed out",
                      extraction := "" }, 0) := by
  rw [pollLoop]
  rw [dif_neg hk]

/-- A successful poll whose status is neither processed nor error-like makes
the loop sleep and poll again. -/
theorem pollLoop_continue (statusAt : Nat → StatusHttpResponse)
    (retrieveResp : RetrieveHttpResponse) (wt : Nat) (m : WhisperResult)
    (k : Nat) (hk : 5 * k < wt) (h200 : (statusAt k).httpCode = 200)
    (hp : (statusAt k).status ≠ "processed")
    (he : hasErrorSubstring (statusAt k).status = false) :
    pollLoop statusAt retrieveResp wt m k
      = ((pollLoop statusAt retrieveResp wt m (k + 1)).1,
         (pollLoop statusAt retrieveResp wt m (k + 1)).2 + 1) := by
  have herr : (statusAt k).status ≠ "error" := by
    intro hcon
    rw [hcon] at he
    revert he
    decide
  rw [pollLoop, dif_pos hk]
  simp [whisper_status, h200, hp, he, herr]

/-- A successful poll with the exact error status ends the loop with the
in-band error result carrying the service message. -/
theorem pollLoop_status_error (statusAt : Nat → StatusHttpResponse)
    (retrieveResp : RetrieveHttpResponse) (wt : Nat) (m : WhisperResult)
    (k : Nat) (hk : 5 * k < wt) (h200 : (statusAt k).httpCode = 200)
    (hst : (statusAt k).status = "error") :
    pollLoop statusAt retrieveResp wt m k
      = (.ok { m with statusCode := -1, message := (statusAt k).message,
                      status := "error", extraction := "" }, 1) := by
  rw [pollLoop, dif_pos hk]
  simp [whisper_status, h200, hst]

/-- A successful poll with a status containing error as a substring ends the
loop with the in-band error result carrying that status string. -/
theorem pollLoop_legacy_error (statusAt : Nat → StatusHttpResponse)
    (retrieveResp : RetrieveHttpResponse) (wt : Nat) (m : WhisperResult)
    (k : Nat) (hk : 5 * k < wt) (h200 : (statusAt k).httpCode = 200)
    (hnp : (statusAt k).status ≠ "processing")
    (hne : (statusAt k).status ≠ "error")
    (hsub : hasErrorSubstring (statusAt k).status = true) :
    pollLoop statusAt retrieveResp wt m k
      = (.ok { m with statusCode := -1, message := (statusAt k).status,
                      status := "error", extraction := "" }, 1) := by
  rw [pollLoop, dif_pos hk]
  simp [whisper_status, h200, hnp, hne, hsub]

/-- A successful poll with status processed followed by a successful retrieve
ends the loop with the processed result carrying the retrieved payload. -/
theorem pollLoop_processed (statusAt : Nat → StatusHttpResponse)
    (retrieveResp : RetrieveHttpResponse) (wt : Nat) (m : WhisperResult)
    (k : Nat) (hk : 5 * k < wt) (h200 : (statusAt k).httpCode = 200)
    (hst : (statusAt k).status = "processed")
    (hr : retrieveResp.httpCode = 200) :
    pollLoop statusAt retrieveResp wt m k
      = (.ok { m with statusCode := 200,
                      message := "Whisper operation completed",
                      status := "processed",
                      extraction := retrieveResp.extraction }, 2) := by
  rw [pollLoop, dif_pos hk]
  simp [whisper_status, whisper_retrieve, h200, hst, hr,
    (by decide : hasErrorSubstring "processed" = false)]

/-- A status poll answered with a non-200 HTTP response makes whisper_status
raise, and the exception propagates out of the loop. -/
theorem pollLoop_status_raises (statusAt : Nat → StatusHttpResponse)
    (retrieveResp : RetrieveHttpResponse) (wt : Nat) (m : WhisperResult)
    (k : Nat) (hk : 5 * k < wt) (hne : (statusAt k).httpCode ≠ 200) :
    pollLoop statusAt retrieveResp wt m k
      = (.error { statusCode := (statusAt k).httpCode,
                  status := (statusAt k).status,
                  message := (statusAt k).message }, 1) := by
  rw [pollLoop, dif_pos hk]
  simp [whisper_status, hne]

/-- A status source that never reports processed nor an error-like status
drives the loop to the timed out sentinel, from any starting poll index. -/
theorem pollLoop_never_terminal (statusAt : Nat → StatusHttpResponse)
    (retrieveResp : RetrieveHttpResponse) (wt : Nat) (m : WhisperResult)
    (hs : ∀ k, (statusAt k).httpCode = 200
      ∧ (statusAt k).status ≠ "processed"
      ∧ hasErrorSubstring (statusAt k).status = false) :
    ∀ k, (pollLoop statusAt retrieveResp wt m k).1
      = .ok { m with statusCode := -1,
                     message := "Whisper client operation timed out",
                     extraction := "" } := by
  have aux : ∀ n k, wt - 5 * k ≤ n →
      (pollLoop statusAt retrieveResp wt m k).1
        = .ok { m with statusCode := -1,
                       message := "Whisper client operation timed out",
                       extraction := "" } := by
    intro n
    induction n with
    | zero =>
      intro k hkn
      rw [pollLoop_timeout statusAt retrieveResp wt m k (by omega)]
    | succ n ih =>
      intro k hkn
      by_cases h5 : 5 * k < wt
      · obtain ⟨h200, hp, he⟩ := hs k
        rw [pollLoop_continue statusAt retrieveResp wt m k h5 h200 hp he]
        exact ih (k + 1) (by omega)
      · rw [pollLoop_timeout statusAt retrieveResp wt m k h5]
  intro k
  exact aux (wt - 5 * k) k le_rfl

/-- C3: with the wait budget large enough for three polls, the scripted
sequence accepted, processing, processed followed by a successful retrieve
yields the processed result with the retrieved payload; a sequence ending in
status error yields the in-band error result with the service message; a
sequence ending in a status containing error as a substring yields the
in-band error result with that status string; and a sequence that never
reaches a terminal status yields the timed out sentinel — all returned as
values, never raised. -/
theorem whisper_polling_terminal_mapping (wt : Nat) (hwt : 10 < wt)
    (m : WhisperResult) (payload errMsg : String) :
    (pollLoop scriptTerminalProcessed ⟨200, payload⟩ wt m 0).1
      = .ok { m with statusCode := 200,
                     message := "Whisper operation completed",
                     status := "processed", extraction := payload }
    ∧ (pollLoop (scriptTerminalError errMsg) ⟨200, payload⟩ wt m 0).1
      = .ok { m with statusCode := -1, message := errMsg,
                     status := "error", extraction := "" }
    ∧ (pollLoop scriptLegacyError ⟨200, payload⟩ wt m 0).1
      = .ok { m with statusCode := -1, message := "table_error",
                     status := "error", extraction := "" }
    ∧ (pollLoop scriptProcessing ⟨200, payload⟩ wt m 0).1
      = .ok { m with statusCode := -1,
                     message := "Whisper client operation timed out",
                     extraction := "" } := by
  refine ⟨?_, ?_, ?_, ?_⟩
  · rw [pollLoop_continue scriptTerminalProcessed ⟨200, payload⟩ wt m 0
      (by omega) rfl (by decide) (by decide)]
    rw [pollLoop_continue scriptTerminalProcessed ⟨200, payload⟩ wt m 1
      (by omega) rfl (by decide) (by decide)]
    rw [pollLoop_processed scriptTerminalProcessed ⟨200, payload⟩ wt m 2
      (by omega) rfl rfl rfl]
  · rw [pollLoop_continue (scriptTerminalError errMsg) ⟨200, payload⟩ wt m 0
      (by omega) rfl
      (by show ("accepted" : String) ≠ "processed"; decide)
      (by show hasErrorSubstring "accepted" = false; decide)]
    rw [pollLoop_status_error (scriptTerminalError errMsg) ⟨200, payload⟩ wt
      m 1 (by omega) rfl rfl]
    rfl
  · rw [pollLoop_continue scriptLegacyError ⟨200, payload⟩ wt m 0
      (by omega) rfl (by decide) (by decide)]
    rw [pollLoop_legacy_error scriptLegacyError ⟨200, payload⟩ wt m 1
      (by omega) rfl (by decide) (by decide) (by decide)]
    rfl
  · exact pollLoop_never_terminal scriptProcessing ⟨200, payload⟩ wt m
      (fun k => ⟨rfl,
        by show ("processing" : String) ≠ "processed"; decide,
        by show hasErrorSubstring "processing" = false; decide⟩) 0

/-- Witness for C3 at the default wait budget and a concrete submit
message. -/
theorem whisper_polling_terminal_mapping_witness :
    (10 : Nat) < 180
    ∧ (pollLoop scriptTerminalProcessed ⟨200, "full text"⟩ 180
        { statusCode := 202, message := "in progress", status := "accepted",
          extraction := "", whisperHash := "h1" } 0).1
      = .ok { statusCode := 200, message := "Whisper operation completed",
              status := "processed", extraction := "full text",
              whisperHash := "h1" } :=
  ⟨by decide,
    (whisper_polling_terminal_mapping 180 (by decide)
      { statusCode := 202, message := "in progress", status := "accepted",
        extraction := "", whisperHash := "h1" } "full text" "boom").1⟩

/-- C10: a status source reporting only statuses that are not processed, not
error, and free of the error substring never ends the loop early; the loop
ends exclusively with the timed out sentinel value. -/
theorem polling_nonterminal_times_out (statusAt : Nat → StatusHttpResponse)
    (retrieveResp : RetrieveHttpResponse) (wt : Nat) (m : WhisperResult)
    (hok : ∀ k, (statusAt k).httpCode = 200)
    (hnp : ∀ k, (statusAt k).status ≠ "processed")
    (_hne : ∀ k, (statusAt k).status ≠ "error")
    (hsub : ∀ k, hasErrorSubstring (statusAt k).status = false) :
    (pollLoop statusAt retrieveResp wt m 0).1
      = .ok { m with statusCode := -1,
                     message := "Whisper client operation timed out",
                     extraction := "" } :=
  pollLoop_never_terminal statusAt retrieveResp wt m
    (fun k => ⟨hok k, hnp k, hsub k⟩) 0

/-- Witness for C10: a job forever reporting the unknown status times out. -/
theorem polling_nonterminal_times_out_witness :
    (pollLoop (fun _ => ⟨200, "unknown", "u"⟩) ⟨200, "x"⟩ 7
        { statusCode := 202, message := "in progress", status := "accepted",
          extraction := "", whisperHash := "h1" } 0).1
      = .ok { statusCode := -1,
              message := "Whisper client operation timed out",
              status := "accepted", extraction := "", whisperHash := "h1" } :=
  polling_nonterminal_times_out (fun _ => ⟨200, "unknown", "u"⟩) ⟨200, "x"⟩ 7
    { statusCode := 202, message := "in progress", status := "accepted",
      extraction := "", whisperHash := "h1" }
    (fun _ => rfl)
    (fun _ => by show ("unknown" : String) ≠ "processed"; decide)
    (fun _ => by show ("unknown" : String) ≠ "error"; decide)
    (fun _ => by show hasErrorSubstring "unknown" = false; decide)

/-- C4: during a blocking whisper call a failing status poll (HTTP 500) makes
whisper_status raise, and the exception propagates out of whisper instead of
the in-band status_code -1 result the claim describes; the in-band branch
would require whisper_status to return a status_code other than 200, which it
never does. -/
theorem whisper_status_failure_raises :
    whisper "" true "https://example.com/doc.pdf" "" false 180
        ⟨202, "whisper accepted", "accepted", "", "hash1"⟩
        (fun _ => ⟨500, "unknown", "internal server error"⟩)
        ⟨200, "payload"⟩
      = { result := .error { statusCode := 500, status := "unknown",
                             message := "internal server error" },
          requestsIssued := 2,
          submitTimeout := some 180 } := by
  have hpoll := pollLoop_status_raises
    (fun _ => ⟨500, "unknown", "internal server error"⟩) ⟨200, "payload"⟩ 180
    { statusCode := 202, message := "whisper accepted", status := "accepted",
      extraction := "", whisperHash := "hash1" } 0 (by omega)
    (by show (500 : Int) ≠ 200; decide)
  simp only [whisper]
  rw [hpoll]
  have hurl : ¬ (("https://example.com/doc.pdf" : String) = "") := by decide
  norm_num [hurl]

/-- The status dictionary whisper_status hands back always carries
status_code 200: the non-200 branch raises instead of returning, so the
in-band failure branch of the polling loop is unreachable. -/
theorem whisper_status_ok_code (r : StatusHttpResponse) (d : StatusDict)
    (h : whisper_status r = .ok d) : d.statusCode = 200 := by
  by_cases hc : r.httpCode = 200
  · simp [whisper_status, hc] at h
    subst h
    rfl
  · simp [whisper_status, hc] at h

/-- C5: with the default api_timeout of 120 and wait_timeout 180, the submit
POST is handed timeout 180 — the raw wait_timeout — not the
min(api_timeout, wait_timeout) = 120 the claim and the unit tests require. -/
theorem whisper_submit_timeout_bug :
    (whisper "" false "https://example.com/doc.pdf" "" false 180
        ⟨200, "ok", "", "full text", "hash1"⟩
        (fun _ => ⟨200, "processed", ""⟩) ⟨200, "full text"⟩).submitTimeout
      = some 180
    ∧ some (min 120 180)
        ≠ (whisper "" false "https://example.com/doc.pdf" "" false 180
            ⟨200, "ok", "", "full text", "hash1"⟩
            (fun _ => ⟨200, "processed", ""⟩)
            ⟨200, "full text"⟩).submitTimeout := by
  constructor
  · simp [whisper]
  · simp [whisper]

/-- C7: submitting with a webhook name while also asking to wait for
completion fails the validation with the status_code -1 client exception
before any network request is issued, whatever the transport would have
answered. -/
theorem webhook_wait_mutual_exclusion (use_webhook : String)
    (wait_for_completion : Bool) (url file_path : String) (hasStream : Bool)
    (wait_timeout : Nat) (submitResp : SubmitHttpResponse)
    (statusAt : Nat → StatusHttpResponse)
    (retrieveResp : RetrieveHttpResponse) (hw : use_webhook ≠ "")
    (hc : wait_for_completion = true) :
    whisper use_webhook wait_for_completion url file_path hasStream
        wait_timeout submitResp statusAt retrieveResp
      = { result := .error { statusCode := -1, status := "",
                             message := "Cannot wait for completion when using webhook" },
          requestsIssued := 0,
          submitTimeout := none } := by
  simp [whisper, hw, hc]

/-- Witness for C7: a concrete whisper call with a webhook name and blocking
completion requested. -/
theorem webhook_wait_mutual_exclusion_witness :
    ("wb1" : String) ≠ ""
    ∧ whisper "wb1" true "https://example.com/doc.pdf" "" false 180
        ⟨200, "ok", "", "full text", "hash1"⟩
        (fun _ => ⟨200, "processed", ""⟩) ⟨200, "full text"⟩
      = { result := .error { statusCode := -1, status := "",
                             message := "Cannot wait for completion when using webhook" },
          requestsIssued := 0,
          submitTimeout := none } :=
  ⟨by decide,
    webhook_wait_mutual_exclusion "wb1" true "https://example.com/doc.pdf" ""
      false 180 ⟨200, "ok", "", "full text", "hash1"⟩
      (fun _ => ⟨200, "processed", ""⟩) ⟨200, "full text"⟩ (by decide) rfl⟩
